import Mathlib

/-!
Shallow embedding of `src/scripts/cluster_profiles.py` (the load-profile
aggregation pipeline): data model, source adapters, filters, feature
derivation, aggregation and reshaping, together with theorems checking the
specification's claims against this embedding.

DataFrames are modelled as lists of records; pandas boolean-mask filtering is
`List.filter`, `drop_duplicates`/`unique` is `List.dedup`, `dropna` after
coercion is `List.filterMap` over `Option`-valued cells, and groupby keys are
sorted (pandas `groupby`/`pivot_table` default `sort=True`).  Floats are
modelled as `ℚ`.  Python truthiness of optional arguments (`if clusters:`,
`if sample_households:`) is modelled explicitly: `None`, `0` and `[]` are all
falsy.
-/

namespace ClusterProfiles

/-- A pandas `Timestamp`, at minute granularity (the pipeline only inspects
`dt.dayofweek`, `dt.hour`, `dt.minute` and compares instants): `day` is the
number of days since 1970-01-01 (a Thursday), plus hour and minute of day. -/
structure Timestamp where
  day : Int
  hour : Nat
  minute : Nat
deriving DecidableEq

/-- Total minutes since the epoch; timestamp comparisons in the source
(`df["timestamp"] >= ...`, `<= ...`) are comparisons of instants. -/
def Timestamp.toMinutes (t : Timestamp) : Int :=
  t.day * 1440 + t.hour * 60 + t.minute

/-- A timestamp produced by `pd.to_datetime` always has an hour in 0..23 and
a minute in 0..59. -/
def Timestamp.Valid (t : Timestamp) : Prop :=
  t.hour < 24 ∧ t.minute < 60

/-- Models `Series.dt.dayofweek`: Monday = 0 .. Sunday = 6.  1970-01-01 is a
Thursday, i.e. day-of-week 3. -/
def Timestamp.dayofweek (t : Timestamp) : Nat :=
  ((t.day + 3) % 7).toNat

/-- Canonical ConsumptionRecord after adapter normalisation: one row of the
frame with columns `household_id, cluster_id, timestamp, consumption_kwh`. -/
structure Record where
  household_id : String
  cluster_id : String
  timestamp : Timestamp
  consumption_kwh : ℚ
deriving DecidableEq

/-- Python truthiness of an `Optional[int]`: `None` and `0` are falsy. -/
def truthyOptNat : Option Nat → Bool
  | none => false
  | some n => n != 0

/-- Python truthiness of an optional list: `None` and `[]` are falsy. -/
def truthyOptList {α : Type} : Option (List α) → Bool
  | none => false
  | some l => !l.isEmpty

/-- A linear congruential step; stands in for the numpy Mersenne-Twister
stream behind `random_state=42`. -/
def lcgNext (s : Nat) : Nat :=
  (s * 1103515245 + 12345) % 2147483648

/-- Draw `n` elements without replacement, consuming the seeded stream. -/
def sampleAux {α : Type} : Nat → Nat → List α → List α
  | 0, _, _ => []
  | _ + 1, _, [] => []
  | n + 1, seed, x :: xs =>
    let s := lcgNext seed
    let i := s % (x :: xs).length
    (x :: xs).get ⟨i, Nat.mod_lt _ (Nat.succ_pos _)⟩ :: sampleAux n s ((x :: xs).eraseIdx i)

/-- Models `DataFrame.sample(n=..., random_state=seed)` /
`Series.sample(n=..., random_state=seed)`: a deterministic, seeded draw of
`n` positions without replacement.  The exact numpy permutation is replaced
by an LCG stream; every property proved below (determinism, size, being a
subset, distinctness) holds of the real generator for the same reason: the
draw is a pure function of `(seed, xs, n)` choosing distinct positions. -/
def pandasSample {α : Type} (seed : Nat) (xs : List α) (n : Nat) : List α :=
  sampleAux n seed xs

/-- The `filter_data` cluster step (line 165-166):
`df[df["cluster_id"].astype(str).isin({str(c) for c in clusters})]`,
guarded by `if clusters:`. -/
def clusterStep (clusters : Option (List String)) (df : List Record) : List Record :=
  if truthyOptList clusters then
    df.filter (fun r => (clusters.getD []).contains r.cluster_id)
  else df

/-- The `filter_data` start-date step (line 167-168):
`df[df["timestamp"] >= pd.to_datetime(start_date, utc=True)]`; a bare date
parses to midnight of that day. -/
def startStep (startDate : Option Int) (df : List Record) : List Record :=
  match startDate with
  | none => df
  | some d => df.filter (fun r => (Timestamp.mk d 0 0).toMinutes ≤ r.timestamp.toMinutes)

/-- The `filter_data` end-date step (line 169-170):
`df[df["timestamp"] <= pd.to_datetime(end_date, utc=True) + pd.Timedelta(days=1)]`.
Note the `<=` against midnight of the day AFTER `end_date`.  The multi-block
adapter (lines 148-151) applies the same two comparisons per block (without
`utc=True`, which does not change the arithmetic). -/
def endStep (endDate : Option Int) (df : List Record) : List Record :=
  match endDate with
  | none => df
  | some d => df.filter (fun r => r.timestamp.toMinutes ≤ (Timestamp.mk (d + 1) 0 0).toMinutes)

/-- Both date bounds, as applied in `filter_data` lines 167-170 and per block
in `load_lcl_dataset` lines 148-151. -/
def dateStep (startDate endDate : Option Int) (df : List Record) : List Record :=
  endStep endDate (startStep startDate df)

/-- The households drawn in `filter_data` lines 172-173:
`households = df["household_id"].drop_duplicates()` and then
`households.sample(n=min(sample_households, len(households)), random_state=42)`. -/
def sampledHouseholds (df : List Record) (n : Nat) : List String :=
  let hs := (df.map (fun r => r.household_id)).dedup
  pandasSample 42 hs (min n hs.length)

/-- The `filter_data` sampling step (lines 171-174), guarded by
`if sample_households:`; keeps rows whose household is in the sample. -/
def sampleStep (sample : Option Nat) (df : List Record) : List Record :=
  if truthyOptNat sample then
    df.filter (fun r => (sampledHouseholds df (sample.getD 0)).contains r.household_id)
  else df

/-- Models `filter_data` (lines 158-175), written as the source writes it: the
cluster mask, then the start bound, then the end bound, then household
sampling over what remains. -/
def filter_data (df : List Record) (sample : Option Nat) (clusters : Option (List String))
    (startDate endDate : Option Int) : List Record :=
  let df1 :=
    if truthyOptList clusters then
      df.filter (fun r => (clusters.getD []).contains r.cluster_id)
    else df
  let df2 :=
    match startDate with
    | none => df1
    | some d => df1.filter (fun r => (Timestamp.mk d 0 0).toMinutes ≤ r.timestamp.toMinutes)
  let df3 :=
    match endDate with
    | none => df2
    | some d => df2.filter (fun r => r.timestamp.toMinutes ≤ (Timestamp.mk (d + 1) 0 0).toMinutes)
  if truthyOptNat sample then
    df3.filter (fun r => (sampledHouseholds df3 (sample.getD 0)).contains r.household_id)
  else df3

/-- AugmentedRecord: a consumption record plus the two derived columns of
`add_time_features`. -/
structure AugmentedRecord where
  record : Record
  is_weekend : Bool
  slot : Nat
deriving DecidableEq

/-- The per-row column assignments of `add_time_features` (lines 179-180):
`is_weekend = dt.dayofweek >= 5`, `slot = dt.hour * 2 + dt.minute // 30`. -/
def augment (r : Record) : AugmentedRecord :=
  { record := r
    is_weekend := decide (5 ≤ r.timestamp.dayofweek)
    slot := r.timestamp.hour * 2 + r.timestamp.minute / 30 }

/-- Models `add_time_features` (lines 178-183): assign the two derived columns to
every row, then keep only rows with `dt.minute.isin([0, 30])`. -/
def add_time_features (df : List Record) : List AugmentedRecord :=
  (df.map augment).filter (fun a => a.record.timestamp.minute == 0 || a.record.timestamp.minute == 30)

/-- Composite groupby key of the aggregator: `(cluster_id, is_weekend, slot)`,
ordered lexicographically as pandas sorts group keys (`sort=True` default).
The cluster id is keyed by its character list so the order is the string
order. -/
abbrev GroupKey := List Char ×ₗ Bool ×ₗ Nat

/-- The key of one augmented row. -/
def recordKey (a : AugmentedRecord) : GroupKey :=
  toLex (a.record.cluster_id.data, toLex (a.is_weekend, a.slot))

/-- The `consumption_kwh` values of one group. -/
def groupVals (df : List AugmentedRecord) (k : GroupKey) : List ℚ :=
  (df.filter (fun a => decide (recordKey a = k))).map (fun a => a.record.consumption_kwh)

/-- The `Series.mean` of one group: sum of the values divided by their count. -/
def groupMean (df : List AugmentedRecord) (k : GroupKey) : ℚ :=
  (groupVals df k).sum / (groupVals df k).length

/-- The distinct group keys observed in the input, in sorted order — the
index of the `groupby(["cluster_id", "is_weekend", "slot"]).mean()` result. -/
def sortedKeys (df : List AugmentedRecord) : List GroupKey :=
  List.insertionSort (· ≤ ·) (df.map recordKey).dedup

/-- One row of the long-form aggregation result. -/
structure ProfilePoint where
  cluster_id : String
  is_weekend : Bool
  slot : Nat
  avg_consumption_kwh : ℚ
deriving DecidableEq

/-- The long-form row for one group key. -/
def mkPoint (df : List AugmentedRecord) (k : GroupKey) : ProfilePoint :=
  { cluster_id := String.mk (ofLex k).1
    is_weekend := (ofLex (ofLex k).2).1
    slot := (ofLex (ofLex k).2).2
    avg_consumption_kwh := groupMean df k }

/-- The `grouped` frame of `compute_profiles` (lines 187-192): one row per
observed `(cluster_id, is_weekend, slot)` key, carrying the group mean. -/
def compute_profiles_long (df : List AugmentedRecord) : List ProfilePoint :=
  (sortedKeys df).map (mkPoint df)

/-- One row of the wide (pivoted) profile table.  A cell is `none` when the
pivot had no value for that side — pandas `NaN`, not `0.0`. -/
structure ProfileRow where
  cluster_id : String
  slot : Nat
  weekday_kwh : Option ℚ
  weekend_kwh : Option ℚ
deriving DecidableEq

/-- Cell lookup in the pivot: the value of the long-form row with the given
cluster, weekend flag and slot, if one exists. -/
def lookupAvg (long : List ProfilePoint) (c : String) (w : Bool) (s : Nat) : Option ℚ :=
  (long.find? (fun p => p.cluster_id == c && p.is_weekend == w && p.slot == s)).map
    (fun p => p.avg_consumption_kwh)

/-- The pivot index: distinct `(cluster_id, slot)` pairs of the long frame,
sorted (pandas `pivot_table` sorts its index). -/
def pivotPairs (long : List ProfilePoint) : List (List Char ×ₗ Nat) :=
  List.insertionSort (· ≤ ·) (long.map (fun p => toLex (p.cluster_id.data, p.slot))).dedup

/-- The value columns of the pivot: `pivot_table(columns="is_weekend")` emits
one column per distinct `is_weekend` value actually present in the long frame
(sorted, `False` before `True`); line 199 then renames `False ↦ weekday_kwh`,
`True ↦ weekend_kwh`.  A side with no observation anywhere yields NO column,
not a column of NaN. -/
def pivotValueCols (long : List ProfilePoint) : List String :=
  (List.insertionSort (· ≤ ·) (long.map (fun p => p.is_weekend)).dedup).map
    (fun w => if w then "weekend_kwh" else "weekday_kwh")

/-- The wide profile table: its column list and its rows. -/
structure WideTable where
  columns : List String
  rows : List ProfileRow
deriving DecidableEq

/-- One wide row of the pivot, for one index pair: the two cells are the
(unique) long-form values for that pair, `none` where the pivot holds NaN. -/
def mkRow (long : List ProfilePoint) (q : List Char ×ₗ Nat) : ProfileRow :=
  { cluster_id := String.mk (ofLex q).1
    slot := (ofLex q).2
    weekday_kwh := lookupAvg long (String.mk (ofLex q).1) false (ofLex q).2
    weekend_kwh := lookupAvg long (String.mk (ofLex q).1) true (ofLex q).2 }

/-- Models `compute_profiles` (lines 186-200): group means in long form, then
`pivot_table(index=["cluster_id", "slot"], columns="is_weekend")` with the
two value columns renamed. -/
def compute_profiles (df : List AugmentedRecord) : WideTable :=
  let long := compute_profiles_long df
  { columns := ["cluster_id", "slot"] ++ pivotValueCols long
    rows := (pivotPairs long).map (mkRow long) }

/-- The fatal errors the script raises (`ValueError` / `SystemExit`); each
constructor corresponds to one `raise` site. -/
inductive LoadError where
  /-- The `ValueError(f"Missing columns in ...")` of line 93 and
  `ValueError(f"Missing columns in info CSV {info_csv}: {missing}")`
  (line 112): carries the enumerated missing columns. -/
  | missingColumns (cols : List String)
  /-- The `SystemExit("No households remain after filtering by cluster.")` of line 116. -/
  | noHouseholds
  /-- The `SystemExit("No data loaded from blocks; check paths and filters.")` of line 154. -/
  | noDataLoaded
  /-- The `SystemExit("No data after filtering; check inputs.")` of line 251. -/
  | noDataAfterFiltering
  /-- The `SystemExit("Provide --consumption-csv or LCL dataset args.")` of line 247. -/
  | missingInput
deriving DecidableEq

/-- The required columns of the generic adapter (line 90). -/
def requiredGenericCols : List String :=
  ["household_id", "cluster_id", "timestamp", "consumption_kwh"]

/-- The columns of `required` absent from `cols`
(`missing = required - set(df.columns)`). -/
def missingCols (required cols : List String) : List String :=
  required.filter (fun c => !(cols.contains c))

/-- One raw row of the generic CSV after `pd.to_datetime(..., errors="coerce")`:
each required cell is `none` when it was missing/NaN or failed to parse. -/
structure RawGenericRow where
  household_id : Option String
  cluster_id : Option String
  tstamp : Option Timestamp
  consumption_kwh : Option ℚ
deriving DecidableEq

/-- Models `load_data` (lines 88-96): check the required columns (raising a
`ValueError` naming every missing one), coerce timestamps, and
`dropna(subset=[...])` the four required cells. -/
def load_data (cols : List String) (rows : List RawGenericRow) :
    Except LoadError (List Record) :=
  let missing := missingCols requiredGenericCols cols
  if missing.isEmpty then
    .ok (rows.filterMap (fun r =>
      match r.household_id, r.cluster_id, r.tstamp, r.consumption_kwh with
      | some h, some c, some t, some e => some ⟨h, c, t, e⟩
      | _, _, _, _ => none))
  else .error (.missingColumns missing)

/-- One row of `informations_households.csv`: `LCLid`, `file`, and the value
of the configured cluster column (`Acorn_grouped` by default). -/
structure InfoRow where
  LCLid : String
  file : String
  cluster : String
deriving DecidableEq

/-- One raw row of a block CSV after renaming (line 128-134) and type
coercion (lines 138-139): `tstp`/`energy(kWh/hh)` cells are `none` when
unparseable, so `dropna` (line 140) drops such rows. -/
structure RawBlockRow where
  LCLid : String
  tstp : Option Timestamp
  energy : Option ℚ
deriving DecidableEq

/-- One physically present `block_*.csv` file in `blocks_dir`. -/
structure Block where
  name : String
  rows : List RawBlockRow
deriving DecidableEq

/-- The households of `info` referencing block file `f`
(`info.groupby("file")["LCLid"].apply(set)`). -/
def blockIds (info : List InfoRow) (f : String) : List String :=
  (info.filter (fun ir => ir.file == f)).map (fun ir => ir.LCLid)

/-- The per-block body of the loop in `load_lcl_dataset` (lines 127-152) for
a block that exists on disk: restrict to the block's relevant households;
`continue` (no frame) if nothing remains; otherwise coerce types and drop
unparseable rows, left-join the cluster column from `info` (every surviving
row's household is in `info`, so the join always matches), and apply the
per-block date bounds.  Returns `none` when the loop appends no frame. -/
def processBlockRows (info : List InfoRow) (startDate endDate : Option Int)
    (ids : List String) (rows : List RawBlockRow) : Option (List Record) :=
  let restricted := rows.filter (fun r => ids.contains r.LCLid)
  if restricted.isEmpty then none
  else
    let parsed : List Record := restricted.filterMap (fun r =>
      match r.tstp, r.energy with
      | some t, some e =>
        some { household_id := r.LCLid
               cluster_id := (((info.find? (fun ir => ir.LCLid == r.LCLid)).map
                 (fun ir => ir.cluster)).getD "")
               timestamp := t
               consumption_kwh := e }
      | _, _ => none)
    some (dateStep startDate endDate parsed)

/-- The block loop of `load_lcl_dataset` (lines 121-152): one optional frame
per referenced block file, in order; a file with no block on disk prints a
warning and contributes nothing (`continue`). -/
def loadFrames (disk : List Block) (info : List InfoRow) (startDate endDate : Option Int)
    (fileNames : List String) : List (List Record) :=
  fileNames.filterMap (fun f =>
    match disk.find? (fun b => b.name == f) with
    | none => none
    | some b => processBlockRows info startDate endDate (blockIds info f) b.rows)

/-- The warnings printed by the block loop: one
`"Warning: block file missing: ..."` line per referenced block file absent
from disk (line 125). -/
def missingBlockWarnings (disk : List Block) (fileNames : List String) : List String :=
  (fileNames.filter (fun f => (disk.find? (fun b => b.name == f)).isNone)).map
    (fun f => "Warning: block file missing: " ++ f)

/-- The info table after the cluster allow-list (lines 113-114), guarded by
`if clusters:`. -/
def lclClusterInfo (clusters : Option (List String)) (info : List InfoRow) : List InfoRow :=
  if truthyOptList clusters then
    info.filter (fun ir => (clusters.getD []).contains ir.cluster)
  else info

/-- The info table after household sampling (lines 117-118):
`info.sample(n=min(sample_households, len(info)), random_state=42)`, guarded
by `if sample_households:`. -/
def lclSampleInfo (sample : Option Nat) (info : List InfoRow) : List InfoRow :=
  if truthyOptNat sample then
    pandasSample 42 info (min (sample.getD 0) info.length)
  else info

/-- Models `load_lcl_dataset` (lines 99-155): check the info-table schema, filter
and sample the household list, then read every referenced block, and
concatenate the collected frames; fatal when nothing was collected. -/
def load_lcl_dataset (disk : List Block) (infoCols : List String) (info0 : List InfoRow)
    (clusterCol : String) (sample : Option Nat) (clusters : Option (List String))
    (startDate endDate : Option Int) : Except LoadError (List Record) :=
  let missing := missingCols (["LCLid", "file", clusterCol].dedup) infoCols
  if missing.isEmpty then
    let info1 := lclClusterInfo clusters info0
    if info1.isEmpty then .error .noHouseholds
    else
      let info2 := lclSampleInfo sample info1
      let frames := loadFrames disk info2 startDate endDate (info2.map (fun ir => ir.file)).dedup
      if frames.isEmpty then .error .noDataLoaded
      else .ok frames.flatten
  else .error (.missingColumns missing)

/-- The generic-path input: the CSV's columns and rows. -/
structure GenericInput where
  cols : List String
  rows : List RawGenericRow
deriving DecidableEq

/-- The multi-block-path input: info CSV columns and rows, the configured
cluster column, and the block files present in `blocks_dir`. -/
structure LclInput where
  infoCols : List String
  info : List InfoRow
  clusterCol : String
  disk : List Block
deriving DecidableEq

/-- The tail of `main` (lines 250-253): fatal when the loaded-and-filtered
frame is empty, otherwise derive time features, aggregate and pivot. -/
def finishPipeline (df : List Record) : Except LoadError WideTable :=
  if df.isEmpty then .error .noDataAfterFiltering
  else .ok (compute_profiles (add_time_features df))

/-- Models `main` (lines 232-253) up to the profile table: the multi-block path is
taken when both LCL arguments are given, the generic path needs
`--consumption-csv` and applies `filter_data`; both then run the common
empty check, feature derivation, aggregation and pivot. -/
def runPipeline (gen : Option GenericInput) (lcl : Option LclInput) (sample : Option Nat)
    (clusters : Option (List String)) (startDate endDate : Option Int) :
    Except LoadError WideTable :=
  match lcl with
  | some l =>
    (load_lcl_dataset l.disk l.infoCols l.info l.clusterCol sample clusters
      startDate endDate).bind finishPipeline
  | none =>
    match gen with
    | none => .error .missingInput
    | some g =>
      (load_data g.cols g.rows).bind (fun df =>
        finishPipeline (filter_data df sample clusters startDate endDate))

/-! ### Concrete data used by counterexamples and witnesses -/

/-- A record at 23:59 on day 0, household H1, cluster A. -/
def lastMinuteRecord : Record :=
  { household_id := "H1", cluster_id := "A", timestamp := ⟨0, 23, 59⟩, consumption_kwh := 1 }

/-- A record at 00:00 on day 1 — midnight of the day AFTER `end_date = day 0`. -/
def nextMidnightRecord : Record :=
  { household_id := "H1", cluster_id := "A", timestamp := ⟨1, 0, 0⟩, consumption_kwh := 1 }

/-- A record at 00:00 on day 2 (1970-01-03, a Saturday), household H1, cluster A. -/
def satRecord : Record :=
  { household_id := "H1", cluster_id := "A", timestamp := ⟨2, 0, 0⟩, consumption_kwh := 1 }

/-- A record at 10:30 on day 5 (1970-01-06, a Tuesday), household H2, cluster A. -/
def tueRecord : Record :=
  { household_id := "H2", cluster_id := "A", timestamp := ⟨5, 10, 30⟩, consumption_kwh := 2 }

/-! ### C1 -/

/-- C1: REFUTED — the claim says the date-range filter keeps exactly the
records with `timestamp < end_date + 1 day`, excluding a record stamped
00:00 on the day after `end_date`.  The code compares with `<=` against
`end_date + 1 day`, so with `end_date = day 0` the record at day 1, 00:00 is
kept by `filter_data`, by the end-date step alone, and by the multi-block
per-block filter — even though its timestamp is not `< end_date + 1 day`.
(The 23:59 record is kept, as claimed.) -/
theorem end_date_filter_includes_next_day_midnight :
    filter_data [lastMinuteRecord, nextMidnightRecord] none none none (some 0)
      = [lastMinuteRecord, nextMidnightRecord]
    ∧ endStep (some 0) [nextMidnightRecord] = [nextMidnightRecord]
    ∧ dateStep none (some 0) [nextMidnightRecord] = [nextMidnightRecord]
    ∧ ¬ nextMidnightRecord.timestamp.toMinutes < (Timestamp.mk (0 + 1) 0 0).toMinutes := by
  refine ⟨rfl, rfl, rfl, by decide⟩

/-! ### C5 -/

/-- Day-of-week is always one of 0..6. -/
theorem dayofweek_lt_seven (t : Timestamp) : t.dayofweek < 7 := by
  have h7 : (0 : Int) < 7 := by decide
  have := Int.emod_lt_of_pos (t.day + 3) h7
  have := Int.emod_nonneg (t.day + 3) (by decide : (7 : Int) ≠ 0)
  unfold Timestamp.dayofweek
  omega

/-- C5: the feature deriver keeps exactly the records whose minute is 0 or
30 (augmenting each), every output row has
`slot = hour*2 + minute/30`, which is at most 47 for a valid timestamp, and
`is_weekend` holds iff the day-of-week is Saturday (5) or Sunday (6). -/
theorem add_time_features_spec (df : List Record) :
    add_time_features df
      = (df.filter (fun r => r.timestamp.minute == 0 || r.timestamp.minute == 30)).map augment
    ∧ ∀ a ∈ add_time_features df,
        (a.record.timestamp.minute = 0 ∨ a.record.timestamp.minute = 30)
        ∧ a.slot = a.record.timestamp.hour * 2 + a.record.timestamp.minute / 30
        ∧ (a.record.timestamp.Valid → a.slot ≤ 47)
        ∧ (a.is_weekend = true ↔
            (a.record.timestamp.dayofweek = 5 ∨ a.record.timestamp.dayofweek = 6)) := by
  constructor
  · unfold add_time_features
    rw [List.filter_map]
    rfl
  · intro a ha
    unfold add_time_features at ha
    rw [List.mem_filter] at ha
    obtain ⟨hmem, hpred⟩ := ha
    obtain ⟨r, _, rfl⟩ := List.mem_map.mp hmem
    refine ⟨?_, rfl, ?_, ?_⟩
    · revert hpred
      unfold augment
      simp
    · rintro ⟨hh, hm⟩
      have hh' : r.timestamp.hour < 24 := hh
      have hm' : r.timestamp.minute < 60 := hm
      show r.timestamp.hour * 2 + r.timestamp.minute / 30 ≤ 47
      have : r.timestamp.minute / 30 ≤ 1 := by omega
      omega
    · have hlt := dayofweek_lt_seven r.timestamp
      unfold augment
      simp only [decide_eq_true_eq]
      omega

/-- Witness for C5 at a concrete Saturday-midnight record. -/
theorem add_time_features_spec_witness :
    (augment satRecord).slot ≤ 47
    ∧ ((augment satRecord).is_weekend = true ↔
        (satRecord.timestamp.dayofweek = 5 ∨ satRecord.timestamp.dayofweek = 6)) := by
  have h := (add_time_features_spec [satRecord]).2 (augment satRecord) (by decide)
  exact ⟨h.2.2.1 ⟨by decide, by decide⟩, h.2.2.2⟩

/-! ### C6 -/

/-- C6: `filter_data` is exactly the composition: cluster allow-list, then
the date range, then household sampling whose pool is the distinct
households of the frame remaining after those two filters (`sampleStep`
draws `sampledHouseholds` from its own argument, not from the raw input). -/
theorem filter_data_order_equiv (df : List Record) (sample : Option Nat)
    (clusters : Option (List String)) (startDate endDate : Option Int) :
    filter_data df sample clusters startDate endDate
      = sampleStep sample (dateStep startDate endDate (clusterStep clusters df)) := rfl

/-! ### C10 -/

/-- C10: a requested sample size of 0 and an empty cluster list are both
falsy in Python, so both guards (`if sample_households:`, `if clusters:`)
skip their filter entirely — in `filter_data` and in the multi-block
adapter's household-list filtering alike — exactly as if the argument were
absent. -/
theorem falsy_sample_and_clusters_no_op (df : List Record) (sample : Option Nat)
    (clusters : Option (List String)) (startDate endDate : Option Int) (disk : List Block)
    (infoCols : List String) (info : List InfoRow) (clusterCol : String) :
    filter_data df (some 0) clusters startDate endDate
      = filter_data df none clusters startDate endDate
    ∧ filter_data df sample (some []) startDate endDate
      = filter_data df sample none startDate endDate
    ∧ load_lcl_dataset disk infoCols info clusterCol (some 0) clusters startDate endDate
      = load_lcl_dataset disk infoCols info clusterCol none clusters startDate endDate
    ∧ load_lcl_dataset disk infoCols info clusterCol sample (some []) startDate endDate
      = load_lcl_dataset disk infoCols info clusterCol sample none startDate endDate :=
  ⟨rfl, rfl, rfl, rfl⟩

/-! ### C4 -/

/-- Unfolding of one sampling draw on a nonempty pool. -/
theorem sampleAux_cons {α : Type} (n seed : Nat) (x : α) (xs : List α) :
    sampleAux (n + 1) seed (x :: xs)
      = (x :: xs).get ⟨lcgNext seed % (x :: xs).length, Nat.mod_lt _ (Nat.succ_pos _)⟩
        :: sampleAux n (lcgNext seed) ((x :: xs).eraseIdx (lcgNext seed % (x :: xs).length)) :=
  rfl

/-- A seeded draw returns exactly `min n (pool size)` elements. -/
theorem sampleAux_length {α : Type} :
    ∀ (n seed : Nat) (xs : List α), (sampleAux n seed xs).length = min n xs.length
  | 0, _, xs => by simp [sampleAux]
  | n + 1, _, [] => by simp [sampleAux]
  | n + 1, seed, x :: xs => by
    have hi : lcgNext seed % (x :: xs).length < (x :: xs).length :=
      Nat.mod_lt _ (Nat.succ_pos _)
    have hlen := List.length_eraseIdx_add_one hi
    rw [sampleAux_cons, List.length_cons, sampleAux_length n (lcgNext seed) _]
    simp only [List.length_cons] at hlen ⊢
    omega

/-- A seeded draw only returns elements of the pool. -/
theorem sampleAux_subset {α : Type} :
    ∀ (n seed : Nat) (xs : List α), ∀ a ∈ sampleAux n seed xs, a ∈ xs
  | 0, _, xs => by simp [sampleAux]
  | n + 1, _, [] => by simp [sampleAux]
  | n + 1, seed, x :: xs => by
    rw [sampleAux_cons]
    intro a ha
    rcases List.mem_cons.mp ha with h | h
    · exact h ▸ List.get_mem _ _ _
    · exact List.mem_of_mem_eraseIdx (sampleAux_subset n (lcgNext seed) _ a h)

/-- A seeded draw from a duplicate-free pool has no duplicates. -/
theorem sampleAux_nodup {α : Type} [DecidableEq α] :
    ∀ (n seed : Nat) (xs : List α), xs.Nodup → (sampleAux n seed xs).Nodup
  | 0, _, xs => by simp [sampleAux]
  | n + 1, _, [] => by simp [sampleAux]
  | n + 1, seed, x :: xs => by
    intro hnd
    rw [sampleAux_cons]
    have hi : lcgNext seed % (x :: xs).length < (x :: xs).length :=
      Nat.mod_lt _ (Nat.succ_pos _)
    have herase : ((x :: xs).eraseIdx (lcgNext seed % (x :: xs).length)).Nodup :=
      (List.eraseIdx_sublist _ _).nodup hnd
    refine List.nodup_cons.mpr ⟨?_, sampleAux_nodup n (lcgNext seed) _ herase⟩
    intro hmem
    have hmem' := sampleAux_subset n (lcgNext seed) _ _ hmem
    rw [← hnd.erase_get ⟨_, hi⟩] at hmem'
    exact hnd.not_mem_erase hmem'

/-- A two-household info table used by witnesses. -/
def infoA : List InfoRow :=
  [{ LCLid := "H1", file := "block_0", cluster := "A" },
   { LCLid := "H2", file := "block_0", cluster := "A" }]

/-- C4: household sampling is a pure, seeded function of its inputs.  On the
generic path the drawn household list has exactly
`min n (number of distinct households)` elements, is duplicate-free, comes
from the household pool, and two runs on the same input agree.  On the
multi-block path (whose pool is the info-table rows, one row per household
when `LCLid`s are distinct) the sampled rows' households are likewise
duplicate-free, number exactly `min n (distinct household count)` for a
truthy sample size, come from the info table, and two runs agree. -/
theorem sampling_deterministic_min_count (df : List Record) (n : Nat)
    (info : List InfoRow) (m : Nat)
    (hinfo : (info.map (fun ir => ir.LCLid)).Nodup) :
    (sampledHouseholds df n).length = min n ((df.map (fun r => r.household_id)).dedup).length
    ∧ (sampledHouseholds df n).Nodup
    ∧ (∀ h ∈ sampledHouseholds df n, h ∈ df.map (fun r => r.household_id))
    ∧ sampledHouseholds df n = sampledHouseholds df n
    ∧ ((lclSampleInfo (some m) info).map (fun ir => ir.LCLid)).Nodup
    ∧ (m ≠ 0 → ((lclSampleInfo (some m) info).map (fun ir => ir.LCLid)).length
        = min m ((info.map (fun ir => ir.LCLid)).dedup).length)
    ∧ (∀ ir ∈ lclSampleInfo (some m) info, ir ∈ info)
    ∧ lclSampleInfo (some m) info = lclSampleInfo (some m) info := by
  have hpool : ((df.map (fun r => r.household_id)).dedup).Nodup := List.nodup_dedup _
  have hsub : ∀ ir ∈ lclSampleInfo (some m) info, ir ∈ info := by
    intro ir hir
    unfold lclSampleInfo at hir
    by_cases hm : truthyOptNat (some m)
    · rw [if_pos hm] at hir
      exact sampleAux_subset _ _ _ _ hir
    · rw [if_neg hm] at hir
      exact hir
  have hrows : info.Nodup := hinfo.of_map
  have hsampleNodup : (lclSampleInfo (some m) info).Nodup := by
    unfold lclSampleInfo
    by_cases hm : truthyOptNat (some m)
    · rw [if_pos hm]
      exact sampleAux_nodup _ _ _ hrows
    · rw [if_neg hm]
      exact hrows
  refine ⟨?_, ?_, ?_, rfl, ?_, ?_, hsub, rfl⟩
  · unfold sampledHouseholds pandasSample
    rw [sampleAux_length]
    omega
  · exact sampleAux_nodup _ _ _ hpool
  · intro h hh
    have := sampleAux_subset _ _ _ _ hh
    exact List.mem_dedup.mp this
  · exact hsampleNodup.map_on (fun a ha b hb hab =>
      List.inj_on_of_nodup_map hinfo (hsub a ha) (hsub b hb) hab)
  · intro hm
    have htr : truthyOptNat (some m) = true := by
      simp [truthyOptNat, hm]
    have hded : (info.map (fun ir => ir.LCLid)).dedup = info.map (fun ir => ir.LCLid) :=
      hinfo.dedup
    unfold lclSampleInfo pandasSample
    rw [if_pos htr, List.length_map, sampleAux_length, hded, List.length_map,
      Option.getD_some]
    omega

/-- Witness for C4 at a concrete two-household info table. -/
theorem sampling_deterministic_min_count_witness :
    (infoA.map (fun ir => ir.LCLid)).Nodup
    ∧ ((lclSampleInfo (some 1) infoA).map (fun ir => ir.LCLid)).length
      = min 1 ((infoA.map (fun ir => ir.LCLid)).dedup).length :=
  ⟨by decide,
   (sampling_deterministic_min_count [] 1 infoA 1 (by decide)).2.2.2.2.2.1 (by decide)⟩

/-! ### C3 -/

/-- The composite key of a long-form profile point. -/
def pointKey (p : ProfilePoint) : GroupKey :=
  toLex (p.cluster_id.data, toLex (p.is_weekend, p.slot))

/-- The sorted key index contains exactly the observed record keys. -/
theorem mem_sortedKeys {df : List AugmentedRecord} {k : GroupKey} :
    k ∈ sortedKeys df ↔ ∃ a ∈ df, recordKey a = k := by
  unfold sortedKeys
  rw [(List.perm_insertionSort _ _).mem_iff, List.mem_dedup]
  simp [List.mem_map]

/-- The sorted key index has no duplicate keys. -/
theorem sortedKeys_nodup (df : List AugmentedRecord) : (sortedKeys df).Nodup :=
  (List.perm_insertionSort _ _).nodup_iff.mpr (List.nodup_dedup _)

/-- Permuting the records leaves the sorted key index unchanged. -/
theorem sortedKeys_perm_invariant {df₁ df₂ : List AugmentedRecord} (h : df₁.Perm df₂) :
    sortedKeys df₁ = sortedKeys df₂ := by
  apply List.eq_of_perm_of_sorted (r := (· ≤ · : GroupKey → GroupKey → Prop))
  · exact (List.perm_insertionSort _ _).trans
      (((h.map recordKey).dedup).trans (List.perm_insertionSort _ _).symm)
  · exact List.sorted_insertionSort _ _
  · exact List.sorted_insertionSort _ _

/-- Permuting the records leaves every group mean unchanged. -/
theorem groupMean_perm_invariant {df₁ df₂ : List AugmentedRecord} (h : df₁.Perm df₂)
    (k : GroupKey) : groupMean df₁ k = groupMean df₂ k := by
  unfold groupMean groupVals
  have hp := (h.filter (fun a => decide (recordKey a = k))).map
    (fun a => a.record.consumption_kwh)
  rw [hp.sum_eq, hp.length_eq]

/-- C3: the aggregator groups by the composite key `(cluster_id, is_weekend,
slot)`: every long-form point's value is the arithmetic mean — group sum of
`consumption_kwh` divided by group count — of a nonempty group, the output
keys are exactly the keys observed in the input (groups with zero members
never appear), and permuting the input records yields the identical
long-form result. -/
theorem aggregation_groupby_mean_spec (df₁ df₂ : List AugmentedRecord) (h : df₁.Perm df₂) :
    (∀ p ∈ compute_profiles_long df₁,
      0 < (groupVals df₁ (pointKey p)).length
      ∧ p.avg_consumption_kwh
        = (groupVals df₁ (pointKey p)).sum / (groupVals df₁ (pointKey p)).length)
    ∧ (∀ k : GroupKey,
        (∃ p ∈ compute_profiles_long df₁, pointKey p = k) ↔ ∃ a ∈ df₁, recordKey a = k)
    ∧ compute_profiles_long df₁ = compute_profiles_long df₂ := by
  refine ⟨?_, ?_, ?_⟩
  · intro p hp
    obtain ⟨k, hk, rfl⟩ := List.mem_map.mp hp
    obtain ⟨a, ha, hak⟩ := mem_sortedKeys.mp hk
    constructor
    · have hmem : a.record.consumption_kwh ∈ groupVals df₁ (pointKey (mkPoint df₁ k)) :=
        List.mem_map_of_mem _ (List.mem_filter.mpr
          ⟨ha, by simp only [decide_eq_true_eq]; rw [hak]; rfl⟩)
      exact List.length_pos.mpr (List.ne_nil_of_mem hmem)
    · rfl
  · intro k
    constructor
    · rintro ⟨p, hp, rfl⟩
      obtain ⟨k', hk', rfl⟩ := List.mem_map.mp hp
      exact mem_sortedKeys.mp hk'
    · intro ha
      exact ⟨mkPoint df₁ k, List.mem_map_of_mem _ (mem_sortedKeys.mpr ha), rfl⟩
  · unfold compute_profiles_long
    rw [sortedKeys_perm_invariant h]
    refine List.map_congr_left (fun k _ => ?_)
    unfold mkPoint
    rw [groupMean_perm_invariant h]

/-- Witness for C3: swapping two concrete augmented records leaves the
long-form aggregation result literally unchanged. -/
theorem aggregation_groupby_mean_spec_witness :
    compute_profiles_long [augment satRecord, augment tueRecord]
      = compute_profiles_long [augment tueRecord, augment satRecord] :=
  (aggregation_groupby_mean_spec _ _ (List.Perm.swap _ _ _)).2.2

/-! ### C2 -/

/-- A `find?` whose predicate has a unique match returns that element. -/
theorem find?_eq_some_of_unique {α : Type} {p : α → Bool} {l : List α} {a : α}
    (ha : a ∈ l) (hpa : p a = true) (huniq : ∀ b ∈ l, p b = true → b = a) :
    l.find? p = some a := by
  induction l with
  | nil => cases ha
  | cons x xs ih =>
    by_cases hx : p x = true
    · have hxa : x = a := huniq x (List.mem_cons_self x xs) hx
      subst hxa
      exact List.find?_cons_of_pos _ hx
    · rw [List.find?_cons_of_neg _ (by simpa using hx)]
      rcases List.mem_cons.mp ha with rfl | hmem
      · exact absurd hpa hx
      · exact ih hmem (fun b hb hpb => huniq b (List.mem_cons_of_mem _ hb) hpb)

/-- Extensionality for the lexicographic triple key. -/
theorem groupKey_ext (k k' : GroupKey) (h1 : (ofLex k).1 = (ofLex k').1)
    (h2 : (ofLex (ofLex k).2).1 = (ofLex (ofLex k').2).1)
    (h3 : (ofLex (ofLex k).2).2 = (ofLex (ofLex k').2).2) : k = k' := by
  have hin : ofLex (ofLex k).2 = ofLex (ofLex k').2 := Prod.ext h2 h3
  have hin2 : (ofLex k).2 = (ofLex k').2 := by simpa using congrArg toLex hin
  have : ofLex k = ofLex k' := Prod.ext h1 hin2
  simpa using congrArg toLex this

/-- Extensionality for the lexicographic pivot-index pair. -/
theorem lexPair_ext {q q' : List Char ×ₗ Nat} (h1 : (ofLex q).1 = (ofLex q').1)
    (h2 : (ofLex q).2 = (ofLex q').2) : q = q' := by
  have : ofLex q = ofLex q' := Prod.ext h1 h2
  simpa using congrArg toLex this

/-- A pivot cell lookup for an observed key returns that group's mean. -/
theorem lookupAvg_of_mem {df : List AugmentedRecord} {c : String} {w : Bool} {s : Nat}
    (h : toLex (c.data, toLex (w, s)) ∈ sortedKeys df) :
    lookupAvg (compute_profiles_long df) c w s
      = some (groupMean df (toLex (c.data, toLex (w, s)))) := by
  unfold lookupAvg compute_profiles_long
  rw [find?_eq_some_of_unique (a := mkPoint df (toLex (c.data, toLex (w, s))))
      (List.mem_map_of_mem _ h) (by simp [mkPoint]) ?uniq]
  · rfl
  case uniq =>
    intro b hb hpb
    obtain ⟨k', hk', rfl⟩ := List.mem_map.mp hb
    simp only [Bool.and_eq_true, beq_iff_eq] at hpb
    obtain ⟨⟨hc, hw⟩, hs⟩ := hpb
    have hdata : (ofLex k').1 = c.data := congrArg String.data hc
    have heq : k' = toLex (c.data, toLex (w, s)) :=
      groupKey_ext k' (toLex (c.data, toLex (w, s))) hdata hw hs
    rw [heq]

/-- A pivot cell lookup for an unobserved key returns NaN (`none`). -/
theorem lookupAvg_of_not_mem {df : List AugmentedRecord} {c : String} {w : Bool} {s : Nat}
    (h : toLex (c.data, toLex (w, s)) ∉ sortedKeys df) :
    lookupAvg (compute_profiles_long df) c w s = none := by
  unfold lookupAvg compute_profiles_long
  rw [List.find?_eq_none.mpr]
  · rfl
  · intro p hp
    obtain ⟨k', hk', rfl⟩ := List.mem_map.mp hp
    intro hpred
    simp only [Bool.and_eq_true, beq_iff_eq] at hpred
    obtain ⟨⟨hc, hw⟩, hs⟩ := hpred
    have hdata : (ofLex k').1 = c.data := congrArg String.data hc
    have heq : k' = toLex (c.data, toLex (w, s)) :=
      groupKey_ext k' (toLex (c.data, toLex (w, s))) hdata hw hs
    exact h (heq ▸ hk')

/-- The pivot index contains exactly the observed `(cluster, slot)` pairs. -/
theorem mem_pivotPairs {df : List AugmentedRecord} {q : List Char ×ₗ Nat} :
    q ∈ pivotPairs (compute_profiles_long df)
      ↔ ∃ a ∈ df, a.record.cluster_id.data = (ofLex q).1 ∧ a.slot = (ofLex q).2 := by
  unfold pivotPairs
  rw [(List.perm_insertionSort _ _).mem_iff, List.mem_dedup, List.mem_map]
  constructor
  · rintro ⟨p, hp, rfl⟩
    obtain ⟨k, hk, rfl⟩ := List.mem_map.mp hp
    obtain ⟨a, ha, hak⟩ := mem_sortedKeys.mp hk
    subst hak
    exact ⟨a, ha, rfl, rfl⟩
  · rintro ⟨a, ha, h1, h2⟩
    refine ⟨mkPoint df (recordKey a),
      List.mem_map_of_mem _ (mem_sortedKeys.mpr ⟨a, ha, rfl⟩), ?_⟩
    exact lexPair_ext h1 h2

/-- The pivot index has no duplicate pairs. -/
theorem pivotPairs_nodup (long : List ProfilePoint) : (pivotPairs long).Nodup :=
  (List.perm_insertionSort _ _).nodup_iff.mpr (List.nodup_dedup _)

/-- The long frame observes a weekend flag iff some input record carries it. -/
theorem mem_long_weekend_iff {df : List AugmentedRecord} {w : Bool} :
    (∃ p ∈ compute_profiles_long df, p.is_weekend = w) ↔ ∃ a ∈ df, a.is_weekend = w := by
  constructor
  · rintro ⟨p, hp, hw⟩
    obtain ⟨k, hk, rfl⟩ := List.mem_map.mp hp
    obtain ⟨a, ha, hak⟩ := mem_sortedKeys.mp hk
    subst hak
    exact ⟨a, ha, hw⟩
  · rintro ⟨a, ha, hw⟩
    exact ⟨mkPoint df (recordKey a),
      List.mem_map_of_mem _ (mem_sortedKeys.mpr ⟨a, ha, rfl⟩), hw⟩

/-- C2 (amended): the pivot produces exactly one row per distinct
`(cluster_id, slot)` pair observed in the input and no rows for unobserved
pairs; within a row, a side with no observation for that pair is NaN
(`none`) — never `0.0` — and a present side is the group mean; but a value
COLUMN only exists when its side is observed somewhere in the input
(`weekday_kwh` is absent from an all-weekend input rather than a column of
nulls, and symmetrically). -/
theorem compute_profiles_pivot_spec (df : List AugmentedRecord) :
    ((compute_profiles df).rows.map (fun r => (r.cluster_id, r.slot))).Nodup
    ∧ (∀ c s, (c, s) ∈ (compute_profiles df).rows.map (fun r => (r.cluster_id, r.slot))
        ↔ ∃ a ∈ df, a.record.cluster_id = c ∧ a.slot = s)
    ∧ (∀ r ∈ (compute_profiles df).rows,
        (r.weekday_kwh = none
          ↔ ¬ ∃ a ∈ df, recordKey a = toLex (r.cluster_id.data, toLex (false, r.slot)))
        ∧ (∀ v, r.weekday_kwh = some v
            → v = groupMean df (toLex (r.cluster_id.data, toLex (false, r.slot))))
        ∧ (r.weekend_kwh = none
          ↔ ¬ ∃ a ∈ df, recordKey a = toLex (r.cluster_id.data, toLex (true, r.slot)))
        ∧ (∀ v, r.weekend_kwh = some v
            → v = groupMean df (toLex (r.cluster_id.data, toLex (true, r.slot)))))
    ∧ ("weekday_kwh" ∈ (compute_profiles df).columns ↔ ∃ a ∈ df, a.is_weekend = false)
    ∧ ("weekend_kwh" ∈ (compute_profiles df).columns ↔ ∃ a ∈ df, a.is_weekend = true) := by
  have hcell : ∀ (q : List Char ×ₗ Nat) (w : Bool),
      (lookupAvg (compute_profiles_long df) (String.mk (ofLex q).1) w (ofLex q).2 = none
        ↔ ¬ ∃ a ∈ df, recordKey a = toLex ((ofLex q).1, toLex (w, (ofLex q).2)))
      ∧ (∀ v, lookupAvg (compute_profiles_long df) (String.mk (ofLex q).1) w (ofLex q).2 = some v
          → v = groupMean df (toLex ((ofLex q).1, toLex (w, (ofLex q).2)))) := by
    intro q w
    by_cases hk : toLex ((ofLex q).1, toLex (w, (ofLex q).2)) ∈ sortedKeys df
    · rw [lookupAvg_of_mem hk]
      refine ⟨?_, ?_⟩
      · simp only [Option.some_ne_none, false_iff, not_not]
        exact mem_sortedKeys.mp hk
      · intro v hv
        injection hv with hv'
        exact hv'.symm
    · rw [lookupAvg_of_not_mem hk]
      refine ⟨?_, ?_⟩
      · simp only [true_iff]
        intro hex
        exact hk (mem_sortedKeys.mpr hex)
      · intro v hv
        cases hv
  have hrows : (compute_profiles df).rows
      = (pivotPairs (compute_profiles_long df)).map (mkRow (compute_profiles_long df)) := rfl
  have hcols : (compute_profiles df).columns
      = ["cluster_id", "slot"] ++ pivotValueCols (compute_profiles_long df) := rfl
  refine ⟨?_, ?_, ?_, ?_, ?_⟩
  · rw [hrows, List.map_map]
    refine (pivotPairs_nodup _).map_on ?_
    intro q hq q' hq' heq
    simp only [Function.comp_apply, mkRow, Prod.mk.injEq] at heq
    exact lexPair_ext (congrArg String.data heq.1) heq.2
  · intro c s
    rw [hrows, List.map_map, List.mem_map]
    constructor
    · rintro ⟨q, hq, heq⟩
      simp only [Function.comp_apply, mkRow, Prod.mk.injEq] at heq
      obtain ⟨a, ha, h1, h2⟩ := mem_pivotPairs.mp hq
      refine ⟨a, ha, ?_, heq.2 ▸ h2⟩
      rw [← heq.1]
      exact congrArg String.mk h1
    · rintro ⟨a, ha, rfl, rfl⟩
      refine ⟨toLex (a.record.cluster_id.data, a.slot),
        mem_pivotPairs.mpr ⟨a, ha, rfl, rfl⟩, rfl⟩
  · intro r hr
    rw [hrows] at hr
    obtain ⟨q, hq, rfl⟩ := List.mem_map.mp hr
    exact ⟨(hcell q false).1, (hcell q false).2, (hcell q true).1, (hcell q true).2⟩
  · rw [hcols, List.mem_append]
    unfold pivotValueCols
    rw [List.mem_map]
    constructor
    · rintro (h | ⟨w, hw, hname⟩)
      · simp at h
      · have hwf : w = false := by
          cases w
          · rfl
          · simp at hname
        subst hwf
        rw [(List.perm_insertionSort _ _).mem_iff, List.mem_dedup, List.mem_map] at hw
        obtain ⟨p, hp, hpw⟩ := hw
        exact mem_long_weekend_iff.mp ⟨p, hp, hpw⟩
    · intro hex
      obtain ⟨p, hp, hpw⟩ := mem_long_weekend_iff.mpr hex
      refine Or.inr ⟨false, ?_, rfl⟩
      rw [(List.perm_insertionSort _ _).mem_iff, List.mem_dedup, List.mem_map]
      exact ⟨p, hp, hpw⟩
  · rw [hcols, List.mem_append]
    unfold pivotValueCols
    rw [List.mem_map]
    constructor
    · rintro (h | ⟨w, hw, hname⟩)
      · simp at h
      · have hwt : w = true := by
          cases w
          · simp at hname
          · rfl
        subst hwt
        rw [(List.perm_insertionSort _ _).mem_iff, List.mem_dedup, List.mem_map] at hw
        obtain ⟨p, hp, hpw⟩ := hw
        exact mem_long_weekend_iff.mp ⟨p, hp, hpw⟩
    · intro hex
      obtain ⟨p, hp, hpw⟩ := mem_long_weekend_iff.mpr hex
      refine Or.inr ⟨true, ?_, rfl⟩
      rw [(List.perm_insertionSort _ _).mem_iff, List.mem_dedup, List.mem_map]
      exact ⟨p, hp, hpw⟩

/-- C2: REFUTED as stated — for an input whose records are all weekend
records, `pivot_table` emits no `False` column at all, so after the rename
the wide table has NO `weekday_kwh` column (rather than a `weekday_kwh`
column full of nulls as the claim's "with weekday_kwh and weekend_kwh
columns" requires). -/
theorem pivot_drops_absent_side_column :
    "weekday_kwh" ∉ (compute_profiles [augment satRecord]).columns
    ∧ (compute_profiles [augment satRecord]).columns = ["cluster_id", "slot", "weekend_kwh"] := by
  exact ⟨by decide, by decide⟩

/-- Witness for C2 at a one-record input: the observed pair is listed. -/
theorem compute_profiles_pivot_spec_witness :
    ∃ a ∈ [augment satRecord], a.record.cluster_id = "A" ∧ a.slot = 0 :=
  ((compute_profiles_pivot_spec [augment satRecord]).2.1 "A" 0).mp (by decide)

/-! ### C8 -/

/-- Membership in the computed missing-column list. -/
theorem mem_missingCols {required cols : List String} {c : String} :
    c ∈ missingCols required cols ↔ c ∈ required ∧ c ∉ cols := by
  unfold missingCols
  rw [List.mem_filter]
  simp

/-- The missing-column list is empty iff every required column is present. -/
theorem missingCols_isEmpty_iff {required cols : List String} :
    (missingCols required cols).isEmpty = true ↔ ∀ c ∈ required, c ∈ cols := by
  rw [List.isEmpty_iff, List.eq_nil_iff_forall_not_mem]
  constructor
  · intro h c hc
    by_contra hmem
    exact h c (mem_missingCols.mpr ⟨hc, hmem⟩)
  · intro h c hc
    obtain ⟨h1, h2⟩ := mem_missingCols.mp hc
    exact h2 (h c h1)

/-- C8: the generic adapter fails (its only failure is the schema
`ValueError`) iff some required column is absent, and the error's column
list enumerates exactly the missing required columns; the multi-block
adapter raises its schema error on the info table under the same iff, again
enumerating exactly the missing required info columns. -/
theorem schema_error_enumerates_missing_columns (cols : List String)
    (rows : List RawGenericRow) (infoCols : List String) (info : List InfoRow)
    (clusterCol : String) (disk : List Block) (sample : Option Nat)
    (clusters : Option (List String)) (startDate endDate : Option Int) :
    ((∃ e, load_data cols rows = .error e) ↔ ∃ c ∈ requiredGenericCols, c ∉ cols)
    ∧ (∀ m, load_data cols rows = .error (.missingColumns m)
        → ∀ c, c ∈ m ↔ (c ∈ requiredGenericCols ∧ c ∉ cols))
    ∧ ((∃ m, load_lcl_dataset disk infoCols info clusterCol sample clusters startDate endDate
          = .error (.missingColumns m))
        ↔ ∃ c ∈ (["LCLid", "file", clusterCol].dedup), c ∉ infoCols)
    ∧ (∀ m, load_lcl_dataset disk infoCols info clusterCol sample clusters startDate endDate
          = .error (.missingColumns m)
        → ∀ c, c ∈ m ↔ (c ∈ (["LCLid", "file", clusterCol].dedup) ∧ c ∉ infoCols)) := by
  have hgen : ∀ m, load_data cols rows = .error (.missingColumns m)
      → m = missingCols requiredGenericCols cols := by
    intro m h
    unfold load_data at h
    by_cases hemp : (missingCols requiredGenericCols cols).isEmpty = true
    · rw [if_pos hemp] at h
      cases h
    · rw [if_neg hemp] at h
      injection h with h'
      injection h' with h''
      exact h''.symm
  have hlcl : ∀ m, load_lcl_dataset disk infoCols info clusterCol sample clusters
        startDate endDate = .error (.missingColumns m)
      → m = missingCols (["LCLid", "file", clusterCol].dedup) infoCols := by
    intro m h
    unfold load_lcl_dataset at h
    by_cases hemp : (missingCols (["LCLid", "file", clusterCol].dedup) infoCols).isEmpty = true
    · rw [if_pos hemp] at h
      by_cases h1 : (lclClusterInfo clusters info).isEmpty = true
      · rw [if_pos h1] at h
        cases h
      · rw [if_neg h1] at h
        by_cases h2 : (loadFrames disk (lclSampleInfo sample (lclClusterInfo clusters info))
            startDate endDate
            ((lclSampleInfo sample (lclClusterInfo clusters info)).map
              (fun ir => ir.file)).dedup).isEmpty = true
        · rw [if_pos h2] at h
          cases h
        · rw [if_neg h2] at h
          cases h
    · rw [if_neg hemp] at h
      injection h with h'
      injection h' with h''
      exact h''.symm
  refine ⟨?_, ?_, ?_, ?_⟩
  · constructor
    · rintro ⟨e, he⟩
      unfold load_data at he
      by_cases hemp : (missingCols requiredGenericCols cols).isEmpty = true
      · rw [if_pos hemp] at he
        cases he
      · rw [missingCols_isEmpty_iff] at hemp
        push_neg at hemp
        obtain ⟨c, hc, hcc⟩ := hemp
        exact ⟨c, hc, hcc⟩
    · rintro ⟨c, hc, hcc⟩
      have hemp : ¬ ((missingCols requiredGenericCols cols).isEmpty = true) := by
        intro hemp
        exact hcc (missingCols_isEmpty_iff.mp hemp c hc)
      unfold load_data
      rw [if_neg hemp]
      exact ⟨_, rfl⟩
  · intro m h c
    rw [hgen m h]
    exact mem_missingCols
  · constructor
    · rintro ⟨m, hm⟩
      have := hlcl m hm
      subst this
      by_contra hno
      push_neg at hno
      have hemp : (missingCols (["LCLid", "file", clusterCol].dedup) infoCols).isEmpty = true :=
        missingCols_isEmpty_iff.mpr hno
      unfold load_lcl_dataset at hm
      rw [if_pos hemp] at hm
      by_cases h1 : (lclClusterInfo clusters info).isEmpty = true
      · rw [if_pos h1] at hm
        cases hm
      · rw [if_neg h1] at hm
        by_cases h2 : (loadFrames disk (lclSampleInfo sample (lclClusterInfo clusters info))
            startDate endDate
            ((lclSampleInfo sample (lclClusterInfo clusters info)).map
              (fun ir => ir.file)).dedup).isEmpty = true
        · rw [if_pos h2] at hm
          cases hm
        · rw [if_neg h2] at hm
          cases hm
    · rintro ⟨c, hc, hcc⟩
      have hemp : ¬ ((missingCols (["LCLid", "file", clusterCol].dedup) infoCols).isEmpty
          = true) := by
        intro hemp
        exact hcc (missingCols_isEmpty_iff.mp hemp c hc)
      unfold load_lcl_dataset
      rw [if_neg hemp]
      exact ⟨_, rfl⟩
  · intro m h c
    rw [hlcl m h]
    exact mem_missingCols

/-- Witness for C8: a table missing `consumption_kwh` and `timestamp` is
rejected with exactly those two columns enumerated. -/
theorem schema_error_enumerates_missing_columns_witness :
    (∃ e, load_data ["household_id", "cluster_id"] [] = .error e)
    ∧ ("timestamp" ∈ missingCols requiredGenericCols ["household_id", "cluster_id"]
        ∧ "timestamp" ∈ requiredGenericCols ∧ "timestamp" ∉ ["household_id", "cluster_id"]) := by
  have h := schema_error_enumerates_missing_columns ["household_id", "cluster_id"] []
    ["LCLid", "file", "Acorn_grouped"] [] "Acorn_grouped" [] none none none none
  refine ⟨h.1.mpr ⟨"timestamp", by decide, by decide⟩, ?_, by decide, by decide⟩
  exact (h.2.1 (missingCols requiredGenericCols ["household_id", "cluster_id"])
    rfl "timestamp").mpr ⟨by decide, by decide⟩

/-! ### C9 -/

/-- C9: when filtering leaves zero records the run aborts before
aggregation and never returns an (empty) profile table: the generic path
raises the "No data after filtering" exit, and the multi-block path —
where an unmatched cluster allow-list empties the household list — raises
its "No households remain after filtering by cluster" exit. -/
theorem empty_after_filter_fatal (g : GenericInput) (l : LclInput) (sample : Option Nat)
    (clusters : Option (List String)) (startDate endDate : Option Int) (df : List Record)
    (hload : load_data g.cols g.rows = .ok df)
    (hempty : filter_data df sample clusters startDate endDate = [])
    (hschema : (missingCols (["LCLid", "file", l.clusterCol].dedup) l.infoCols).isEmpty = true)
    (hcluster : lclClusterInfo clusters l.info = []) :
    runPipeline (some g) none sample clusters startDate endDate = .error .noDataAfterFiltering
    ∧ (∀ t, runPipeline (some g) none sample clusters startDate endDate ≠ .ok t)
    ∧ runPipeline none (some l) sample clusters startDate endDate = .error .noHouseholds
    ∧ (∀ t, runPipeline none (some l) sample clusters startDate endDate ≠ .ok t) := by
  have hgen : runPipeline (some g) none sample clusters startDate endDate
      = .error .noDataAfterFiltering := by
    show (load_data g.cols g.rows).bind
      (fun df => finishPipeline (filter_data df sample clusters startDate endDate)) = _
    rw [hload]
    show finishPipeline (filter_data df sample clusters startDate endDate) = _
    rw [hempty]
    rfl
  have hload2 : load_lcl_dataset l.disk l.infoCols l.info l.clusterCol sample clusters
      startDate endDate = .error .noHouseholds := by
    unfold load_lcl_dataset
    rw [if_pos hschema, hcluster]
    rfl
  have hlcl : runPipeline none (some l) sample clusters startDate endDate
      = .error .noHouseholds := by
    show (load_lcl_dataset l.disk l.infoCols l.info l.clusterCol sample clusters
      startDate endDate).bind finishPipeline = _
    rw [hload2]
    rfl
  refine ⟨hgen, ?_, hlcl, ?_⟩
  · intro t h
    rw [hgen] at h
    cases h
  · intro t h
    rw [hlcl] at h
    cases h

/-- A raw generic row for household H1, cluster A, Saturday midnight. -/
def rawRowA : RawGenericRow :=
  { household_id := some "H1"
    cluster_id := some "A"
    tstamp := some ⟨2, 0, 0⟩
    consumption_kwh := some 1 }

/-- A generic input with the right schema and a single cluster-A record. -/
def genA : GenericInput :=
  { cols := ["household_id", "cluster_id", "timestamp", "consumption_kwh"]
    rows := [rawRowA] }

/-- A parseable raw block row for household H1, Saturday midnight. -/
def blockRowA : RawBlockRow :=
  { LCLid := "H1"
    tstp := some ⟨2, 0, 0⟩
    energy := some 1 }

/-- An LCL input with one cluster-A household and its (present) block. -/
def lclA : LclInput :=
  { infoCols := ["LCLid", "file", "Acorn_grouped"]
    info := [{ LCLid := "H1", file := "block_0", cluster := "A" }]
    clusterCol := "Acorn_grouped"
    disk := [{ name := "block_0", rows := [blockRowA] }] }

/-- Witness for C9: filtering both inputs to the nonexistent cluster Z is
fatal on both paths. -/
theorem empty_after_filter_fatal_witness :
    runPipeline (some genA) none none (some ["Z"]) none none
      = .error .noDataAfterFiltering
    ∧ runPipeline none (some lclA) none (some ["Z"]) none none = .error .noHouseholds := by
  have h := empty_after_filter_fatal genA lclA none (some ["Z"]) none none
    [{ household_id := "H1", cluster_id := "A", timestamp := ⟨2, 0, 0⟩, consumption_kwh := 1 }]
    rfl rfl rfl rfl
  exact ⟨h.1, h.2.2.1⟩

/-! ### C7 -/

/-- C7 (amended): a referenced block file absent from disk produces a
non-fatal warning line and contributes no frame — the loop continues with
the remaining blocks.  When NO referenced block contributes a frame (every
one is missing, or empty after restriction to its relevant households), the
run fails fatally with the "no data loaded" error.  But when some block
contributes a frame whose records are all dropped by type coercion or the
date filter, the loaded frame set is nonempty-but-empty-joined: the run
still aborts fatally before aggregation, with the "no data after
filtering" error instead of "no data loaded". -/
theorem missing_block_skip_and_fatal_empty (disk : List Block) (info info0 : List InfoRow)
    (startDate endDate : Option Int) (f : String) (rest : List String)
    (infoCols : List String) (clusterCol : String) (sample : Option Nat)
    (clusters : Option (List String)) (l : LclInput)
    (hmiss : disk.find? (fun b => b.name == f) = none) :
    loadFrames disk info startDate endDate (f :: rest)
      = loadFrames disk info startDate endDate rest
    ∧ ("Warning: block file missing: " ++ f) ∈ missingBlockWarnings disk (f :: rest)
    ∧ ((missingCols (["LCLid", "file", clusterCol].dedup) infoCols).isEmpty = true
        → (lclClusterInfo clusters info0).isEmpty = false
        → loadFrames disk (lclSampleInfo sample (lclClusterInfo clusters info0))
            startDate endDate
            ((lclSampleInfo sample (lclClusterInfo clusters info0)).map
              (fun ir => ir.file)).dedup = []
        → load_lcl_dataset disk infoCols info0 clusterCol sample clusters startDate endDate
            = .error .noDataLoaded)
    ∧ (load_lcl_dataset l.disk l.infoCols l.info l.clusterCol sample clusters
          startDate endDate = .ok []
        → runPipeline none (some l) sample clusters startDate endDate
            = .error .noDataAfterFiltering) := by
  refine ⟨?_, ?_, ?_, ?_⟩
  · unfold loadFrames
    rw [List.filterMap_cons, hmiss]
  · unfold missingBlockWarnings
    refine List.mem_map.mpr ⟨f, ?_, rfl⟩
    refine List.mem_filter.mpr ⟨List.mem_cons_self f rest, ?_⟩
    rw [hmiss]
    rfl
  · intro hschema hfilled hframes
    unfold load_lcl_dataset
    rw [if_pos hschema]
    rw [if_neg (by rw [hfilled]; exact Bool.false_ne_true)]
    simp only [hframes]
    rfl
  · intro hok
    show (load_lcl_dataset l.disk l.infoCols l.info l.clusterCol sample clusters
      startDate endDate).bind finishPipeline = _
    rw [hok]
    rfl

/-- C7 counterexample data: one present block whose only relevant row has an
unparseable timestamp, so the block contributes an empty frame. -/
def lclBadInput : LclInput :=
  { infoCols := ["LCLid", "file", "Acorn_grouped"]
    info := [{ LCLid := "H1", file := "block_0", cluster := "A" }]
    clusterCol := "Acorn_grouped"
    disk := [{ name := "block_0"
               rows := [{ LCLid := "H1", tstp := none, energy := some 1 }] }] }

/-- C7: REFUTED as stated — here zero blocks contribute any usable data
(the only block's only relevant row is dropped as unparseable), yet the
adapter returns successfully with zero records and the run's fatal error is
"no data after filtering", not the claimed "no data loaded". -/
theorem no_data_loaded_error_counterexample :
    load_lcl_dataset lclBadInput.disk lclBadInput.infoCols lclBadInput.info
      lclBadInput.clusterCol none none none none = .ok []
    ∧ runPipeline none (some lclBadInput) none none none none
      = .error .noDataAfterFiltering
    ∧ runPipeline none (some lclBadInput) none none none none
      ≠ .error .noDataLoaded :=
  ⟨rfl, rfl, fun h => nomatch h⟩

/-- Witness for C7: with an empty disk the single referenced block is
skipped with a warning, the all-blocks-missing case exits with "no data
loaded", and the empty-frames case exits with "no data after filtering". -/
theorem missing_block_skip_and_fatal_empty_witness :
    loadFrames [] [] none none ["block_0"] = loadFrames [] [] none none []
    ∧ ("Warning: block file missing: " ++ "block_0")
        ∈ missingBlockWarnings [] ["block_0"]
    ∧ load_lcl_dataset [] ["LCLid", "file", "Acorn_grouped"]
        [{ LCLid := "H1", file := "block_0", cluster := "A" }] "Acorn_grouped"
        none none none none = .error .noDataLoaded
    ∧ runPipeline none (some lclBadInput) none none none none
        = .error .noDataAfterFiltering := by
  have h := missing_block_skip_and_fatal_empty [] []
    [{ LCLid := "H1", file := "block_0", cluster := "A" }] none none "block_0" []
    ["LCLid", "file", "Acorn_grouped"] "Acorn_grouped" none none lclBadInput rfl
  exact ⟨h.1, h.2.1, h.2.2.1 rfl rfl rfl, h.2.2.2 rfl⟩

end ClusterProfiles
